import Mathlib

/-!
Verification development for the ChatTax repository.

Part 1 embeds the two Zustand stores that ship in the repository's
TypeScript sources (`src/store/chatStore.ts` and the checklist store)
as pure state-transition functions.

Part 2 models the two-stage retrieval and answer-assembly engine.  The
Python services implementing it (`vector_store_service.py`,
`reranker_service.py`, ...) are documented in the repository's guides
but their sources are not part of the checkout, so the engine is
modelled from the specification text; every such definition carries a
doc comment starting `Modelled from the spec:`.
-/

/-! ## Chat store (`src/store/chatStore.ts`) -/

inductive Role
  | user
  | assistant
deriving Repr, DecidableEq

structure Message where
  id : String
  role : Role
  content : String
  timestamp : Nat
  isStreaming : Option Bool
deriving Repr, DecidableEq

structure Conversation where
  id : String
  title : String
  messages : List Message
  createdAt : Nat
  updatedAt : Nat
deriving Repr, DecidableEq

structure ChatState where
  conversations : List Conversation
  currentConversationId : Option String
  streamingMessageId : Option String
deriving Repr, DecidableEq

/-- Embedding of `deleteConversation` (chatStore.ts, lines 171-186).
The new current id is computed as `newConversations[0]?.id || null`:
JavaScript `||` also maps an empty-string id to `null`, which the
`if conv.id = "" then none` branch reproduces. -/
def deleteConversation (s : ChatState) (id : String) : ChatState :=
  let newConversations := s.conversations.filter (fun conv => conv.id ≠ id)
  let newCurrentId :=
    if s.currentConversationId = some id then
      match newConversations.head? with
      | some conv => if conv.id = "" then none else some conv.id
      | none => none
    else
      s.currentConversationId
  { s with conversations := newConversations, currentConversationId := newCurrentId }

/-! ## Checklist store (`src/unnamed/part_008`, a Zustand checklist store) -/

inductive TaskStatus
  | todo
  | doing
  | done
deriving Repr, DecidableEq

inductive TaskPriority
  | high
  | medium
  | low
deriving Repr, DecidableEq

structure ChecklistTask where
  id : String
  title : String
  description : String
  status : TaskStatus
  createdAt : Nat
  updatedAt : Nat
  priority : Option TaskPriority
  category : Option String
deriving Repr, DecidableEq

/-- The checklist filter `TaskStatus | 'all'`; `none` stands for `'all'`. -/
structure ChecklistState where
  tasks : List ChecklistTask
  filter : Option TaskStatus
deriving Repr, DecidableEq

/-- The per-task body of `toggleTaskStatus` (part_008, lines 129-143):
`todo → doing`, `doing → done`, anything else → `todo`, and
`updatedAt` is set to the current time. -/
def toggleTask (id : String) (now : Nat) (task : ChecklistTask) : ChecklistTask :=
  if task.id = id then
    let newStatus : TaskStatus :=
      if task.status = TaskStatus.todo then TaskStatus.doing
      else if task.status = TaskStatus.doing then TaskStatus.done
      else TaskStatus.todo
    { task with status := newStatus, updatedAt := now }
  else task

/-- Embedding of `toggleTaskStatus` (part_008, lines 129-143). -/
def toggleTaskStatus (s : ChecklistState) (id : String) (now : Nat) : ChecklistState :=
  { s with tasks := s.tasks.map (toggleTask id now) }

/-- The status cycle `todo → doing → done → todo`. -/
def nextStatus : TaskStatus → TaskStatus
  | TaskStatus.todo => TaskStatus.doing
  | TaskStatus.doing => TaskStatus.done
  | TaskStatus.done => TaskStatus.todo

/-! ## Retrieval core data model

Modelled from the spec: the Python services implementing the two-stage
retrieval engine are not part of the checkout; the definitions below
follow §3-§4 of the specification.  Scores are rationals standing for
the spec's floats. -/

inductive UserType
  | individual
  | business
  | professional
deriving Repr, DecidableEq

/-- Modelled from the spec: §3 DocumentChunk, one metadata row per
indexed vector. -/
structure DocumentChunk where
  chunk_id : String
  doc_id : String
  source_url : String
  section_heading : String
  text : String
  tokens_est : Nat
  is_table_summary : Bool
  table_ref : Option String
  provenance : String
  crawl_date : String
  last_updated_on_page : String
deriving Repr, DecidableEq

/-- Modelled from the spec: §3 RetrievalCandidate. -/
structure RetrievalCandidate where
  chunk : DocumentChunk
  relevance_score : ℚ
deriving Repr, DecidableEq

/-- Modelled from the spec: §3 RankedResult, a candidate plus an
optional joint score. -/
structure RankedResult where
  chunk : DocumentChunk
  relevance_score : ℚ
  rerank_score : Option ℚ
deriving Repr, DecidableEq

/-- Modelled from the spec: §3 QueryRequest. -/
structure QueryRequest where
  question : String
  user_type : UserType
  top_k : Nat
  use_reranking : Bool
  initial_candidates : Nat
deriving Repr, DecidableEq

/-- Modelled from the spec: §3 AnswerResult (the timestamp is an
external clock concern and is omitted). -/
structure AnswerResult where
  answer : String
  sources : List RankedResult
  confidence : ℚ
  user_type : UserType
deriving Repr, DecidableEq

/-- Modelled from the spec: §4.1, the immutable vector index and its
row-aligned metadata. -/
structure IndexStore where
  vectors : List (List ℚ)
  metadata : List DocumentChunk
deriving Repr, DecidableEq

inductive LoadError
  | IndexNotFoundError
  | IndexConsistencyError
deriving Repr, DecidableEq

/-- Modelled from the spec: §4.1 `load(index_path, metadata_path)` —
a missing artifact (here `none`) raises `IndexNotFoundError`, a vector
count differing from the metadata row count raises
`IndexConsistencyError`, otherwise the store is built. -/
def IndexStore.load (indexArtifact : Option (List (List ℚ)))
    (metadataArtifact : Option (List DocumentChunk)) :
    Except LoadError IndexStore :=
  match indexArtifact, metadataArtifact with
  | none, _ => Except.error LoadError.IndexNotFoundError
  | _, none => Except.error LoadError.IndexNotFoundError
  | some vecs, some rows =>
    if vecs.length = rows.length then Except.ok ⟨vecs, rows⟩
    else Except.error LoadError.IndexConsistencyError

def IndexStore.vectorCount (s : IndexStore) : Nat := s.vectors.length

def IndexStore.metadataRowCount (s : IndexStore) : Nat := s.metadata.length

def IndexStore.row (s : IndexStore) (i : Nat) : Option DocumentChunk := s.metadata[i]?

/-! ## Score-ordered selection

Both ranking stages order by a rational key, descending, with ties
broken by ascending original position (spec §4.2 and §4.3). -/

def clamp01 (x : ℚ) : ℚ := max 0 (min 1 x)

/-- Dot product of two embedding vectors (truncating at the shorter). -/
def dot : List ℚ → List ℚ → ℚ
  | a :: moreA, b :: moreB => a * b + dot moreA moreB
  | _, _ => 0

/-- `a` may come before `b`: strictly larger key, or equal key and
position no later. -/
def scoreLe {α : Type} (key : α → ℚ) (pos : α → Nat) (a b : α) : Prop :=
  key b < key a ∨ (key a = key b ∧ pos a ≤ pos b)

/-- Strict version of `scoreLe`: larger key, or equal key and strictly
earlier position. -/
def scoreLt {α : Type} (key : α → ℚ) (pos : α → Nat) (a b : α) : Prop :=
  key b < key a ∨ (key a = key b ∧ pos a < pos b)

instance {α : Type} (key : α → ℚ) (pos : α → Nat) : DecidableRel (scoreLe key pos) :=
  fun a b => inferInstanceAs (Decidable (key b < key a ∨ (key a = key b ∧ pos a ≤ pos b)))

instance {α : Type} (key : α → ℚ) (pos : α → Nat) : IsTotal α (scoreLe key pos) := by
  constructor
  intro a b
  rcases lt_trichotomy (key a) (key b) with h | h | h
  · exact Or.inr (Or.inl h)
  · rcases Nat.le_total (pos a) (pos b) with hp | hp
    · exact Or.inl (Or.inr ⟨h, hp⟩)
    · exact Or.inr (Or.inr ⟨h.symm, hp⟩)
  · exact Or.inl (Or.inl h)

instance {α : Type} (key : α → ℚ) (pos : α → Nat) : IsTrans α (scoreLe key pos) := by
  constructor
  intro a b c hab hbc
  rcases hab with h1 | ⟨h1e, h1p⟩ <;> rcases hbc with h2 | ⟨h2e, h2p⟩
  · exact Or.inl (h2.trans h1)
  · exact Or.inl (by rw [← h2e]; exact h1)
  · exact Or.inl (by rw [h1e]; exact h2)
  · exact Or.inr ⟨h1e.trans h2e, h1p.trans h2p⟩

/-- Annotate a list with original positions, stably sort by the key
(descending, ties by ascending position) and keep the first `k`. -/
def rankByKey {β : Type} (key : β → ℚ) (l : List β) (k : Nat) : List (Nat × β) :=
  ((l.enum).insertionSort (scoreLe (fun p => key p.2) Prod.fst)).take k

/-! ## CandidateRetriever -/

/-- Modelled from the spec: §4.2 — embed the query, score every index
position by similarity (dot product of the query vector with the
stored vector, i.e. cosine similarity on normalized embeddings),
normalize with the fixed monotone transform
`score = clamp01((similarity + 1) / 2)`, order by decreasing
`relevance_score` with ties broken by ascending original index
position, and return the first `n`. -/
def retrieve (embed : String → List ℚ) (store : IndexStore)
    (query : String) (n : Nat) : List RetrievalCandidate :=
  let queryVec := embed query
  let scoredRows := (store.vectors.zip store.metadata).map
    (fun p => ({ chunk := p.2,
                 relevance_score := clamp01 ((dot queryVec p.1 + 1) / 2) } : RetrievalCandidate))
  (rankByKey (fun c => c.relevance_score) scoredRows n).map Prod.snd

/-! ## Reranker -/

def toRanked (c : RetrievalCandidate) : RankedResult :=
  { chunk := c.chunk, relevance_score := c.relevance_score, rerank_score := none }

/-- Modelled from the spec: §4.3 PassthroughReranker — returns
`candidates[:k]` unchanged, `rerank_score` left unset. -/
def PassthroughReranker.rerank (_query : String)
    (candidates : List RetrievalCandidate) (k : Nat) : List RankedResult :=
  (candidates.take k).map toRanked

def attachJoint (p : RetrievalCandidate × ℚ) : RankedResult :=
  { chunk := p.1.chunk, relevance_score := p.1.relevance_score, rerank_score := some p.2 }

/-- The ranking key: prefer `rerank_score` when present, else
`relevance_score` (spec §4.4). -/
def rankKey (r : RankedResult) : ℚ := r.rerank_score.getD r.relevance_score

/-- Modelled from the spec: §4.3 JointScoringReranker — attach each
candidate's joint score as `rerank_score`, sort by `rerank_score`
descending with ties broken by the incoming order (stability), return
the top `k`.  The original position is kept alongside each result so
stability is observable. -/
def JointScoringReranker.rerank (scored : List (RetrievalCandidate × ℚ))
    (k : Nat) : List (Nat × RankedResult) :=
  rankByKey rankKey (scored.map attachJoint) k

/-- Score every `(query, chunk.text)` pair with the joint-scoring
model; `none` when the model raises on any pair. -/
def scoreAll (f : String → String → Option ℚ) (query : String) :
    List RetrievalCandidate → Option (List (RetrievalCandidate × ℚ))
  | [] => some []
  | c :: more =>
    match f query c.chunk.text, scoreAll f query more with
    | some sc, some rest => some ((c, sc) :: rest)
    | _, _ => none

inductive LogEvent
  | RerankerUnavailable
deriving Repr, DecidableEq

/-- Modelled from the spec: §4.3 failure policy — when the
joint-scoring model is absent (`none`) or raises on invocation, fall
back to `PassthroughReranker` behaviour and record a non-fatal
`RerankerUnavailable` event; otherwise rerank jointly. -/
def rerankDocuments (scorer : Option (String → String → Option ℚ))
    (query : String) (candidates : List RetrievalCandidate) (k : Nat) :
    List (Nat × RankedResult) × List LogEvent :=
  match scorer with
  | none => ((PassthroughReranker.rerank query candidates k).enum,
             [LogEvent.RerankerUnavailable])
  | some f =>
    match scoreAll f query candidates with
    | none => ((PassthroughReranker.rerank query candidates k).enum,
               [LogEvent.RerankerUnavailable])
    | some scored => (JointScoringReranker.rerank scored k, [])

/-! ## ConfidenceEstimator -/

/-- Modelled from the spec: §4.4 — `estimate([]) = 0`; for a non-empty
result list the spec leaves the exact aggregate open (§9) and requires
a deterministic function of the available scores (prefer
`rerank_score`, else `relevance_score`) that is strictly positive;
fixed here as the top result's key clamped into `[1/100, 1]`. -/
def ConfidenceEstimator.estimate : List RankedResult → ℚ
  | [] => 0
  | r :: _ => max (1 / 100) (clamp01 (rankKey r))

/-! ## ContextAssembler -/

def noPassagesContext : String := "No relevant passages found."

def noRelevantDocsAnswer : String :=
  "No relevant documents were found for your question."

/-- One citation-tagged block: 1-based citation index, section heading,
source URL, last-updated date, text truncated at `maxChars` characters
(character-level truncation never splits a multibyte encoding). -/
def renderBlock (i : Nat) (r : RankedResult) (maxChars : Nat) : String :=
  "[Source " ++ toString (i + 1) ++ "] " ++ r.chunk.section_heading ++ " | "
    ++ r.chunk.source_url ++ " | " ++ r.chunk.last_updated_on_page ++ "\n"
    ++ r.chunk.text.take maxChars

/-- Modelled from the spec: §4.5 ContextAssembler — zero results yield
the explicit no-passages context and an empty source-record list;
otherwise the context renders the results in order and the
source-record list is the result list itself. -/
def ContextAssembler.assemble (results : List RankedResult) (maxChars : Nat) :
    String × List RankedResult :=
  if results.isEmpty then (noPassagesContext, [])
  else (String.intercalate "\n\n" (results.enum.map (fun p => renderBlock p.1 p.2 maxChars)),
        results)

/-! ## Orchestration -/

/-- Modelled from the spec: §6 — the external collaborators consumed by
the core: a text-embedding function, an optional joint query-passage
scoring function (which may itself fail per pair), and a
text-generation function, plus the assembly truncation limit. -/
structure Deps where
  embed : String → List ℚ
  jointScorer : Option (String → String → Option ℚ)
  generate : String → String → String
  maxChunkChars : Nat

def pipelineCandidates (deps : Deps) (store : IndexStore) (req : QueryRequest) :
    List RetrievalCandidate :=
  retrieve deps.embed store req.question req.initial_candidates

/-- The `(RERANK | SKIP_RERANK)` stage of §4.6: reranking when
requested (with graceful fallback), passthrough otherwise. -/
def pipelineStaged (deps : Deps) (store : IndexStore) (req : QueryRequest) :
    List (Nat × RankedResult) × List LogEvent :=
  if req.use_reranking then
    rerankDocuments deps.jointScorer req.question (pipelineCandidates deps store req) req.top_k
  else
    ((PassthroughReranker.rerank req.question (pipelineCandidates deps store req) req.top_k).enum,
     [])

def pipelineResults (deps : Deps) (store : IndexStore) (req : QueryRequest) :
    List RankedResult :=
  (pipelineStaged deps store req).1.map Prod.snd

/-- Modelled from the spec: §4.6 orchestration — retrieve, optionally
rerank (degrading to passthrough, never fatally), assemble the context,
generate the answer (an explanatory text when no passages were found,
per the `NoRelevantDocumentsFound` typed empty result of §7), estimate
confidence.  Returns the result together with the logged events. -/
def answerQuery (deps : Deps) (store : IndexStore) (req : QueryRequest) :
    AnswerResult × List LogEvent :=
  let results := pipelineResults deps store req
  let assembled := ContextAssembler.assemble results deps.maxChunkChars
  ({ answer := if results.isEmpty then noRelevantDocsAnswer
               else deps.generate assembled.1 req.question,
     sources := assembled.2,
     confidence := ConfidenceEstimator.estimate results,
     user_type := req.user_type },
   (pipelineStaged deps store req).2)

/-! ## Concrete fixtures -/

def chunkA : DocumentChunk :=
  { chunk_id := "c1", doc_id := "d1", source_url := "u1", section_heading := "h1",
    text := "t1", tokens_est := 3, is_table_summary := false, table_ref := none,
    provenance := "ato", crawl_date := "2025-01-01", last_updated_on_page := "2025-01-02" }

def chunkB : DocumentChunk :=
  { chunkA with chunk_id := "c2", doc_id := "d2", text := "t2", section_heading := "h2" }

def chunkC : DocumentChunk :=
  { chunkA with chunk_id := "c3", doc_id := "d3", text := "t3", section_heading := "h3" }

def sampleStore : IndexStore :=
  { vectors := [[1], [-1], [0]], metadata := [chunkA, chunkB, chunkC] }

def emptyStore : IndexStore := { vectors := [], metadata := [] }

def sampleScorer : String → String → Option ℚ := fun _ t => some ((t.length : ℚ))

def sampleDeps : Deps :=
  { embed := fun _ => [1], jointScorer := some sampleScorer,
    generate := fun _ _ => "generated", maxChunkChars := 100 }

def sampleDepsNoScorer : Deps := { sampleDeps with jointScorer := none }

def sampleReq : QueryRequest :=
  { question := "q", user_type := UserType.individual, top_k := 2,
    use_reranking := true, initial_candidates := 5 }

def sampleReqNoRerank : QueryRequest := { sampleReq with use_reranking := false }

def convA : Conversation :=
  { id := "a", title := "A", messages := [], createdAt := 0, updatedAt := 0 }

def convB : Conversation :=
  { id := "", title := "B", messages := [], createdAt := 0, updatedAt := 0 }

def convC : Conversation :=
  { id := "c", title := "C", messages := [], createdAt := 0, updatedAt := 0 }

/-- A state whose current conversation is `"a"` and whose other
conversation has the empty string as id. -/
def cexChatState : ChatState :=
  { conversations := [convA, convB], currentConversationId := some "a",
    streamingMessageId := none }

def wChatState : ChatState :=
  { conversations := [convA, convC], currentConversationId := some "a",
    streamingMessageId := none }

def taskA : ChecklistTask :=
  { id := "x", title := "Gather W-2 Forms", description := "Collect forms",
    status := TaskStatus.todo, createdAt := 0, updatedAt := 0,
    priority := some TaskPriority.high, category := some "Documents" }

def taskB : ChecklistTask :=
  { taskA with id := "y", title := "Collect 1099 Forms", status := TaskStatus.done }

def wChecklist : ChecklistState := { tasks := [taskA, taskB], filter := none }

/-! ## Generic facts about `rankByKey` -/

theorem rankByKey_length_le {β : Type} (key : β → ℚ) (l : List β) (k : Nat) :
    (rankByKey key l k).length ≤ k := by
  unfold rankByKey
  rw [List.length_take]
  exact Nat.min_le_left _ _

theorem rankByKey_sorted {β : Type} (key : β → ℚ) (l : List β) (k : Nat) :
    (rankByKey key l k).Pairwise (scoreLt (fun p => key p.2) Prod.fst) := by
  unfold rankByKey
  apply List.Pairwise.sublist (List.take_sublist _ _)
  have hsorted :
      (l.enum.insertionSort (scoreLe (fun p => key p.2) Prod.fst)).Pairwise
        (scoreLe (fun p => key p.2) Prod.fst) :=
    List.sorted_insertionSort _ _
  have hperm := List.perm_insertionSort (scoreLe (fun p => key p.2) Prod.fst) l.enum
  have hnodup :
      ((l.enum.insertionSort (scoreLe (fun p => key p.2) Prod.fst)).map Prod.fst).Nodup := by
    have henum : (l.enum.map Prod.fst).Nodup := by
      rw [List.enum_map_fst]
      exact List.nodup_range _
    exact ((hperm.map Prod.fst).nodup_iff).mpr henum
  have hne :
      (l.enum.insertionSort (scoreLe (fun p => key p.2) Prod.fst)).Pairwise
        (fun a b => a.1 ≠ b.1) :=
    List.pairwise_map.mp hnodup
  refine List.Pairwise.imp₂ (fun a b hle hnep => ?_) hsorted hne
  rcases hle with h | ⟨he, hp⟩
  · exact Or.inl h
  · exact Or.inr ⟨he, Nat.lt_of_le_of_ne hp hnep⟩

theorem rankByKey_mem {β : Type} (key : β → ℚ) (l : List β) (k : Nat) :
    ∀ p ∈ rankByKey key l k, l[p.1]? = some p.2 := by
  intro p hp
  have h1 : p ∈ l.enum.insertionSort (scoreLe (fun q => key q.2) Prod.fst) :=
    List.mem_of_mem_take hp
  have h2 : p ∈ l.enum := (List.perm_insertionSort _ _).mem_iff.mp h1
  exact List.mem_enum_iff_getElem?.mp h2

theorem map_snd_rankByKey_sorted {β : Type} (key : β → ℚ) (l : List β) (k : Nat) :
    ((rankByKey key l k).map Prod.snd).Pairwise (fun a b => key b ≤ key a) := by
  apply List.pairwise_map.mpr
  refine (rankByKey_sorted key l k).imp (fun h => ?_)
  rcases h with h | ⟨he, _⟩
  · exact le_of_lt h
  · exact le_of_eq he.symm

/-! ## Facts about the retrieval stage -/

theorem retrieve_sorted (embed : String → List ℚ) (store : IndexStore)
    (q : String) (n : Nat) :
    (retrieve embed store q n).Pairwise
      (fun a b => b.relevance_score ≤ a.relevance_score) := by
  unfold retrieve
  exact map_snd_rankByKey_sorted _ _ _

theorem retrieve_of_no_vectors (embed : String → List ℚ) (store : IndexStore)
    (q : String) (n : Nat) (h : store.vectorCount = 0) :
    retrieve embed store q n = [] := by
  obtain ⟨vecs, meta⟩ := store
  have hv : vecs = [] := List.length_eq_zero.mp h
  subst hv
  simp [retrieve, rankByKey]

/-! ## Facts about the assembled pipeline -/

theorem assemble_snd (results : List RankedResult) (m : Nat) :
    (ContextAssembler.assemble results m).2 = results := by
  unfold ContextAssembler.assemble
  by_cases h : results.isEmpty
  · simp [h, List.isEmpty_iff.mp h]
  · simp [h]

theorem answerQuery_sources (deps : Deps) (store : IndexStore) (req : QueryRequest) :
    (answerQuery deps store req).1.sources = pipelineResults deps store req := by
  unfold answerQuery
  simp [assemble_snd]

theorem answerQuery_confidence (deps : Deps) (store : IndexStore) (req : QueryRequest) :
    (answerQuery deps store req).1.confidence
      = ConfidenceEstimator.estimate (pipelineResults deps store req) := rfl

theorem answerQuery_events (deps : Deps) (store : IndexStore) (req : QueryRequest) :
    (answerQuery deps store req).2 = (pipelineStaged deps store req).2 := rfl

theorem passthrough_length_le (q : String) (candidates : List RetrievalCandidate) (k : Nat) :
    (PassthroughReranker.rerank q candidates k).length ≤ k := by
  unfold PassthroughReranker.rerank
  rw [List.length_map, List.length_take]
  exact Nat.min_le_left _ _

theorem pipelineStaged_length_le (deps : Deps) (store : IndexStore) (req : QueryRequest) :
    (pipelineStaged deps store req).1.length ≤ req.top_k := by
  unfold pipelineStaged
  by_cases hr : req.use_reranking
  · simp only [hr, if_true]
    unfold rerankDocuments
    cases deps.jointScorer with
    | none =>
      simpa [List.enum_length] using
        passthrough_length_le req.question (pipelineCandidates deps store req) req.top_k
    | some f =>
      cases hs : scoreAll f req.question (pipelineCandidates deps store req) with
      | none =>
        simpa [hs, List.enum_length] using
          passthrough_length_le req.question (pipelineCandidates deps store req) req.top_k
      | some scored =>
        simpa [hs] using rankByKey_length_le rankKey (scored.map attachJoint) req.top_k
  · simp only [hr, if_false]
    simpa [List.enum_length] using
      passthrough_length_le req.question (pipelineCandidates deps store req) req.top_k

theorem pipelineStaged_of_empty (deps : Deps) (store : IndexStore) (req : QueryRequest)
    (h : pipelineCandidates deps store req = []) :
    (pipelineStaged deps store req).1 = [] := by
  unfold pipelineStaged
  rw [h]
  by_cases hr : req.use_reranking
  · simp only [hr, if_true]
    unfold rerankDocuments
    cases deps.jointScorer with
    | none => simp [PassthroughReranker.rerank]
    | some f => simp [scoreAll, JointScoringReranker.rerank, rankByKey, PassthroughReranker.rerank]
  · simp [hr, PassthroughReranker.rerank]

theorem clamp01_nonneg (x : ℚ) : 0 ≤ clamp01 x := le_max_left 0 _

theorem clamp01_le_one (x : ℚ) : clamp01 x ≤ 1 := max_le (by norm_num) (min_le_left 1 x)

theorem estimate_pos_of_ne_nil {results : List RankedResult} (h : results ≠ []) :
    0 < ConfidenceEstimator.estimate results := by
  cases results with
  | nil => exact absurd rfl h
  | cons r t =>
    show (0 : ℚ) < max (1 / 100) (clamp01 (rankKey r))
    calc (0 : ℚ) < 1 / 100 := by norm_num
    _ ≤ max (1 / 100) (clamp01 (rankKey r)) := le_max_left _ _

/-- C1: for every QueryRequest processed by answerQuery (any question,
any top_k in [1,10], any use_reranking, any initial_candidates in
[5,50]), the returned AnswerResult satisfies
`result.sources.length ≤ request.top_k`. -/
theorem answerQuery_sources_length_le_top_k (deps : Deps) (store : IndexStore)
    (req : QueryRequest)
    (h1 : 1 ≤ req.top_k) (h2 : req.top_k ≤ 10)
    (h3 : 5 ≤ req.initial_candidates) (h4 : req.initial_candidates ≤ 50) :
    ((answerQuery deps store req).1).sources.length ≤ req.top_k := by
  rw [answerQuery_sources]
  unfold pipelineResults
  rw [List.length_map]
  exact pipelineStaged_length_le deps store req

/-- Witness for C1 at a concrete request (`top_k = 2`,
`initial_candidates = 5`). -/
theorem answerQuery_sources_length_le_top_k_witness :
    1 ≤ sampleReq.top_k ∧ sampleReq.top_k ≤ 10
    ∧ 5 ≤ sampleReq.initial_candidates ∧ sampleReq.initial_candidates ≤ 50
    ∧ ((answerQuery sampleDeps sampleStore sampleReq).1).sources.length ≤ sampleReq.top_k :=
  ⟨by decide, by decide, by decide, by decide,
   answerQuery_sources_length_le_top_k sampleDeps sampleStore sampleReq
     (by decide) (by decide) (by decide) (by decide)⟩

/-- C5: `ConfidenceEstimator.estimate` always lands in `[0,1]`,
`estimate [] = 0`, the estimate is `0` exactly on the empty result
list, and end to end the answer's confidence is `0` iff its sources
are empty. -/
theorem confidence_estimator_contract (results : List RankedResult)
    (deps : Deps) (store : IndexStore) (req : QueryRequest) :
    (0 ≤ ConfidenceEstimator.estimate results ∧ ConfidenceEstimator.estimate results ≤ 1)
    ∧ (ConfidenceEstimator.estimate results = 0 ↔ results = [])
    ∧ ((answerQuery deps store req).1.confidence = 0
        ↔ (answerQuery deps store req).1.sources = []) := by
  refine ⟨⟨?_, ?_⟩, ?_, ?_⟩
  · cases results with
    | nil => norm_num [ConfidenceEstimator.estimate]
    | cons r t => exact le_of_lt (estimate_pos_of_ne_nil (by simp))
  · cases results with
    | nil => norm_num [ConfidenceEstimator.estimate]
    | cons r t =>
      show max (1 / 100) (clamp01 (rankKey r)) ≤ 1
      exact max_le (by norm_num) (clamp01_le_one _)
  · constructor
    · intro h
      by_contra hne
      exact absurd h (ne_of_gt (estimate_pos_of_ne_nil hne))
    · intro h
      subst h
      rfl
  · rw [answerQuery_confidence, answerQuery_sources]
    constructor
    · intro h
      by_contra hne
      exact absurd h (ne_of_gt (estimate_pos_of_ne_nil hne))
    · intro h
      rw [h]
      rfl

/-- C6: a loaded store with zero vectors makes retrieval return `[]`
rather than raising, and end to end the result is the typed empty
result: no sources, confidence `0`, the explanatory answer text, and
the assembler's explicit no-passages context with empty source
records. -/
theorem empty_index_typed_empty_result (deps : Deps) (store : IndexStore)
    (req : QueryRequest) (q : String) (n m : Nat)
    (h0 : store.vectorCount = 0) :
    retrieve deps.embed store q n = []
    ∧ (answerQuery deps store req).1.sources = []
    ∧ (answerQuery deps store req).1.confidence = 0
    ∧ (answerQuery deps store req).1.answer = noRelevantDocsAnswer
    ∧ ContextAssembler.assemble [] m = (noPassagesContext, []) := by
  have hcand : pipelineCandidates deps store req = [] :=
    retrieve_of_no_vectors deps.embed store req.question req.initial_candidates h0
  have hres : pipelineResults deps store req = [] := by
    unfold pipelineResults
    rw [pipelineStaged_of_empty deps store req hcand]
    rfl
  refine ⟨retrieve_of_no_vectors deps.embed store q n h0, ?_, ?_, ?_, rfl⟩
  · rw [answerQuery_sources, hres]
  · rw [answerQuery_confidence, hres]
    rfl
  · unfold answerQuery
    simp [hres]

/-- Witness for C6 at the concrete empty store. -/
theorem empty_index_typed_empty_result_witness :
    emptyStore.vectorCount = 0
    ∧ (answerQuery sampleDeps emptyStore sampleReq).1.sources = []
    ∧ (answerQuery sampleDeps emptyStore sampleReq).1.confidence = 0
    ∧ (answerQuery sampleDeps emptyStore sampleReq).1.answer = noRelevantDocsAnswer :=
  ⟨rfl,
   (empty_index_typed_empty_result sampleDeps emptyStore sampleReq "q" 3 10 rfl).2.1,
   (empty_index_typed_empty_result sampleDeps emptyStore sampleReq "q" 3 10 rfl).2.2.1,
   (empty_index_typed_empty_result sampleDeps emptyStore sampleReq "q" 3 10 rfl).2.2.2.1⟩

/-- C7: loading fails with `IndexNotFoundError` when either artifact is
missing and with `IndexConsistencyError` exactly when the vector count
differs from the metadata row count; a successfully loaded store has
`vectorCount = metadataRowCount` and position `i` aligned with
metadata row `i` (the pure model is immutable after load by
construction). -/
theorem indexStore_load_invariant
    (idx : Option (List (List ℚ))) (meta : Option (List DocumentChunk))
    (vecs : List (List ℚ)) (rows : List DocumentChunk) :
    IndexStore.load none meta = Except.error LoadError.IndexNotFoundError
    ∧ IndexStore.load idx none = Except.error LoadError.IndexNotFoundError
    ∧ (vecs.length ≠ rows.length →
        IndexStore.load (some vecs) (some rows)
          = Except.error LoadError.IndexConsistencyError)
    ∧ (vecs.length = rows.length →
        IndexStore.load (some vecs) (some rows) = Except.ok ⟨vecs, rows⟩)
    ∧ (∀ store, IndexStore.load (some vecs) (some rows) = Except.ok store →
        store.vectorCount = store.metadataRowCount
        ∧ (∀ i : Nat, store.row i = rows[i]? ∧ store.vectors[i]? = vecs[i]?)) := by
  refine ⟨?_, ?_, ?_, ?_, ?_⟩
  · cases meta <;> rfl
  · cases idx <;> rfl
  · intro h
    simp only [IndexStore.load]
    rw [if_neg h]
  · intro h
    simp only [IndexStore.load]
    rw [if_pos h]
  · intro store h
    simp only [IndexStore.load] at h
    by_cases hl : vecs.length = rows.length
    · rw [if_pos hl] at h
      have hst : (⟨vecs, rows⟩ : IndexStore) = store := by injection h
      subst hst
      exact ⟨hl, fun i => ⟨rfl, rfl⟩⟩
    · rw [if_neg hl] at h
      exact absurd h (by simp)

/-- Witness for C7 at one-row concrete artifacts. -/
theorem indexStore_load_invariant_witness :
    IndexStore.load (some [[1]]) (some [chunkA]) = Except.ok ⟨[[1]], [chunkA]⟩ :=
  (indexStore_load_invariant (some [[1]]) (some [chunkA]) [[1]] [chunkA]).2.2.2.1 rfl

/-- C8: two calls whose requests agree field by field against the same
store produce identical sources (hence identical ordering and
identical relevance and rerank scores); in the pure model the whole
pipeline is a function of its inputs. -/
theorem answerQuery_deterministic (deps : Deps) (store : IndexStore)
    (req req' : QueryRequest)
    (h1 : req.question = req'.question) (h2 : req.user_type = req'.user_type)
    (h3 : req.top_k = req'.top_k) (h4 : req.use_reranking = req'.use_reranking)
    (h5 : req.initial_candidates = req'.initial_candidates) :
    (answerQuery deps store req).1.sources = (answerQuery deps store req').1.sources
    ∧ (answerQuery deps store req).1.sources.map RankedResult.relevance_score
        = (answerQuery deps store req').1.sources.map RankedResult.relevance_score
    ∧ (answerQuery deps store req).1.sources.map RankedResult.rerank_score
        = (answerQuery deps store req').1.sources.map RankedResult.rerank_score := by
  have h : req = req' := by
    cases req
    cases req'
    simp_all
  subst h
  exact ⟨rfl, rfl, rfl⟩

/-- Witness for C8 at a concrete repeated request. -/
theorem answerQuery_deterministic_witness :
    (answerQuery sampleDeps sampleStore sampleReq).1.sources
      = (answerQuery sampleDeps sampleStore sampleReq).1.sources :=
  (answerQuery_deterministic sampleDeps sampleStore sampleReq sampleReq
    rfl rfl rfl rfl rfl).1

theorem scoreAll_eq_some_of_isSome (f : String → String → Option ℚ) (q : String) :
    ∀ l : List RetrievalCandidate, (∀ c ∈ l, (f q c.chunk.text).isSome) →
      ∃ scored, scoreAll f q l = some scored
  | [], _ => ⟨[], rfl⟩
  | c :: more, h => by
    obtain ⟨sc, hsc⟩ := Option.isSome_iff_exists.mp (h c (List.mem_cons_self c more))
    obtain ⟨rest, hrest⟩ :=
      scoreAll_eq_some_of_isSome f q more (fun x hx => h x (List.mem_cons_of_mem c hx))
    exact ⟨(c, sc) :: rest, by simp [scoreAll, hsc, hrest]⟩

/-- C2: with reranking requested, enough initial candidates and a
functioning joint scorer, every returned source carries a
`rerank_score`, the sources are sorted by that score non-increasing,
and — via the position annotations — ties between equal scores keep the
incoming bi-encoder order, each annotated result being exactly the
scored candidate at its recorded incoming position. -/
theorem answerQuery_reranked_sources_sorted_stable
    (deps : Deps) (store : IndexStore) (req : QueryRequest)
    (f : String → String → Option ℚ)
    (hrr : req.use_reranking = true)
    (hk : req.top_k ≤ req.initial_candidates)
    (hjs : deps.jointScorer = some f)
    (hf : ∀ c ∈ pipelineCandidates deps store req, (f req.question c.chunk.text).isSome) :
    (∀ r ∈ (answerQuery deps store req).1.sources, r.rerank_score.isSome = true)
    ∧ (answerQuery deps store req).1.sources.Pairwise (fun a b => rankKey b ≤ rankKey a)
    ∧ ∃ scored,
        scoreAll f req.question (pipelineCandidates deps store req) = some scored
        ∧ (pipelineStaged deps store req).1 = JointScoringReranker.rerank scored req.top_k
        ∧ (answerQuery deps store req).1.sources
            = (pipelineStaged deps store req).1.map Prod.snd
        ∧ (pipelineStaged deps store req).1.Pairwise
            (scoreLt (fun p => rankKey p.2) Prod.fst)
        ∧ ∀ p ∈ (pipelineStaged deps store req).1,
            (scored.map attachJoint)[p.1]? = some p.2 := by
  obtain ⟨scored, hscored⟩ := scoreAll_eq_some_of_isSome f req.question _ hf
  have hstage : (pipelineStaged deps store req).1
      = JointScoringReranker.rerank scored req.top_k := by
    unfold pipelineStaged rerankDocuments
    rw [hrr, hjs]
    simp [hscored]
  have hsrc : (answerQuery deps store req).1.sources
      = (pipelineStaged deps store req).1.map Prod.snd := by
    rw [answerQuery_sources]
    rfl
  refine ⟨?_, ?_, scored, hscored, hstage, hsrc, ?_, ?_⟩
  · intro r hr
    rw [hsrc, hstage] at hr
    obtain ⟨p, hp, rfl⟩ := List.mem_map.mp hr
    have hmem := rankByKey_mem rankKey (scored.map attachJoint) req.top_k p hp
    obtain ⟨c, hc, hceq⟩ := List.mem_map.mp (List.getElem?_mem hmem)
    rw [← hceq]
    rfl
  · rw [hsrc, hstage]
    exact map_snd_rankByKey_sorted rankKey (scored.map attachJoint) req.top_k
  · rw [hstage]
    exact rankByKey_sorted rankKey (scored.map attachJoint) req.top_k
  · rw [hstage]
    exact rankByKey_mem rankKey (scored.map attachJoint) req.top_k

/-- Witness for C2 at a concrete request with a total joint scorer. -/
theorem answerQuery_reranked_sources_sorted_stable_witness :
    sampleReq.use_reranking = true
    ∧ sampleReq.top_k ≤ sampleReq.initial_candidates
    ∧ sampleDeps.jointScorer = some sampleScorer
    ∧ ∀ r ∈ (answerQuery sampleDeps sampleStore sampleReq).1.sources,
        r.rerank_score.isSome = true :=
  ⟨rfl, by decide, rfl,
   (answerQuery_reranked_sources_sorted_stable sampleDeps sampleStore sampleReq
      sampleScorer rfl (by decide) rfl (fun c _ => rfl)).1⟩

/-- C3: the passthrough law — `PassthroughReranker.rerank q candidates
k` is `candidates[:k]` with chunk and relevance untouched and
`rerank_score` unset — and, for every request with
`use_reranking = false`, the returned sources carry no `rerank_score`
and are sorted by `relevance_score` non-increasing. -/
theorem passthrough_law_and_unranked_pipeline
    (q : String) (candidates : List RetrievalCandidate) (k : Nat)
    (deps : Deps) (store : IndexStore) (req : QueryRequest)
    (hrr : req.use_reranking = false) :
    (PassthroughReranker.rerank q candidates k).length = (candidates.take k).length
    ∧ (∀ i : Nat, ∀ c : RetrievalCandidate, (candidates.take k)[i]? = some c →
        (PassthroughReranker.rerank q candidates k)[i]? = some (toRanked c)
        ∧ (toRanked c).chunk = c.chunk
        ∧ (toRanked c).relevance_score = c.relevance_score
        ∧ (toRanked c).rerank_score = none)
    ∧ (answerQuery deps store req).1.sources
        = PassthroughReranker.rerank req.question (pipelineCandidates deps store req) req.top_k
    ∧ (∀ r ∈ (answerQuery deps store req).1.sources, r.rerank_score = none)
    ∧ (answerQuery deps store req).1.sources.Pairwise
        (fun a b => b.relevance_score ≤ a.relevance_score) := by
  have hsrc : (answerQuery deps store req).1.sources
      = PassthroughReranker.rerank req.question (pipelineCandidates deps store req) req.top_k := by
    rw [answerQuery_sources]
    unfold pipelineResults pipelineStaged
    rw [hrr]
    simp [List.enum_map_snd]
  refine ⟨?_, ?_, hsrc, ?_, ?_⟩
  · unfold PassthroughReranker.rerank
    rw [List.length_map]
  · intro i c hc
    refine ⟨?_, rfl, rfl, rfl⟩
    unfold PassthroughReranker.rerank
    rw [List.getElem?_map, hc]
    rfl
  · intro r hr
    rw [hsrc] at hr
    unfold PassthroughReranker.rerank at hr
    obtain ⟨c, hc, hceq⟩ := List.mem_map.mp hr
    rw [← hceq]
    rfl
  · rw [hsrc]
    unfold PassthroughReranker.rerank
    apply List.pairwise_map.mpr
    have hsorted := retrieve_sorted deps.embed store req.question req.initial_candidates
    exact List.Pairwise.sublist (List.take_sublist req.top_k _) hsorted

/-- Witness for C3 at a concrete no-reranking request. -/
theorem passthrough_law_and_unranked_pipeline_witness :
    sampleReqNoRerank.use_reranking = false
    ∧ ∀ r ∈ (answerQuery sampleDeps sampleStore sampleReqNoRerank).1.sources,
        r.rerank_score = none :=
  ⟨rfl,
   (passthrough_law_and_unranked_pipeline "q" [] 1 sampleDeps sampleStore
      sampleReqNoRerank rfl).2.2.2.1⟩

/-- C4: when the joint-scoring model is unavailable or raises on this
query's candidates, the query still succeeds: the result equals that of
the same request with `use_reranking = false`, and the non-fatal
`RerankerUnavailable` event is recorded. -/
theorem reranker_fallback_graceful (deps : Deps) (store : IndexStore) (req : QueryRequest)
    (hrr : req.use_reranking = true)
    (hun : deps.jointScorer = none
      ∨ ∃ f, deps.jointScorer = some f
          ∧ scoreAll f req.question (pipelineCandidates deps store req) = none) :
    (answerQuery deps store req).1
      = (answerQuery deps store { req with use_reranking := false }).1
    ∧ (answerQuery deps store req).2 = [LogEvent.RerankerUnavailable] := by
  have hstage : pipelineStaged deps store req
      = ((PassthroughReranker.rerank req.question (pipelineCandidates deps store req)
            req.top_k).enum,
         [LogEvent.RerankerUnavailable]) := by
    unfold pipelineStaged rerankDocuments
    rw [hrr]
    rcases hun with h | ⟨f, hf, hnone⟩
    · simp [h]
    · simp [hf, hnone]
  have hstage' : pipelineStaged deps store { req with use_reranking := false }
      = ((PassthroughReranker.rerank req.question (pipelineCandidates deps store req)
            req.top_k).enum,
         []) := by
    unfold pipelineStaged
    simp [pipelineCandidates]
  have hres : pipelineResults deps store req
      = pipelineResults deps store { req with use_reranking := false } := by
    unfold pipelineResults
    rw [hstage, hstage']
  constructor
  · unfold answerQuery
    rw [hres]
  · rw [answerQuery_events, hstage]

/-- Witness for C4 with a concretely absent joint scorer. -/
theorem reranker_fallback_graceful_witness :
    sampleReq.use_reranking = true
    ∧ sampleDepsNoScorer.jointScorer = none
    ∧ (answerQuery sampleDepsNoScorer sampleStore sampleReq).2
        = [LogEvent.RerankerUnavailable] :=
  ⟨rfl, rfl,
   (reranker_fallback_graceful sampleDepsNoScorer sampleStore sampleReq rfl (Or.inl rfl)).2⟩

/-- Counterexample for C9 as stated: deleting the current conversation
`"a"` leaves `[convB]` whose first conversation has the empty string as
id, yet `currentConversationId` becomes `none` rather than `some ""`,
because the source computes `newConversations[0]?.id || null` and `||`
treats the empty string as falsy. -/
theorem deleteConversation_empty_id_counterexample :
    (deleteConversation cexChatState "a").conversations.head?.map Conversation.id = some ""
    ∧ (deleteConversation cexChatState "a").currentConversationId = none := by
  constructor <;> rfl

/-- C9 (amended): `deleteConversation` removes exactly the
conversations with the given id (order preserved) and leaves the rest
unchanged; when the deleted conversation was current, the new current
id is the first remaining conversation's id — or `none` when no
conversation remains or when that first id is the empty string (the
`|| null` in the source treats it as absent); otherwise the current id
is unchanged. -/
theorem deleteConversation_spec_amended (s : ChatState) (id : String) :
    (∀ c : Conversation, c ∈ (deleteConversation s id).conversations
        ↔ c ∈ s.conversations ∧ c.id ≠ id)
    ∧ (deleteConversation s id).conversations.Sublist s.conversations
    ∧ (s.currentConversationId ≠ some id →
        (deleteConversation s id).currentConversationId = s.currentConversationId)
    ∧ (s.currentConversationId = some id →
        ((deleteConversation s id).conversations = [] →
          (deleteConversation s id).currentConversationId = none)
        ∧ ∀ c more, (deleteConversation s id).conversations = c :: more →
            (deleteConversation s id).currentConversationId
              = if c.id = "" then none else some c.id) := by
  refine ⟨?_, ?_, ?_, ?_⟩
  · intro c
    simp [deleteConversation, List.mem_filter]
  · simp only [deleteConversation]
    exact List.filter_sublist _
  · intro h
    simp [deleteConversation, h]
  · intro h
    constructor
    · intro hnil
      simp only [deleteConversation] at hnil ⊢
      rw [if_pos h, hnil]
      rfl
    · intro c more hcons
      simp only [deleteConversation] at hcons ⊢
      rw [if_pos h, hcons]
      rfl

/-- Witness for C9 (amended) at a concrete state: deleting the current
conversation promotes the (non-empty-id) first remaining one. -/
theorem deleteConversation_spec_amended_witness :
    (deleteConversation wChatState "a").currentConversationId = some "c" := by
  have h := ((deleteConversation_spec_amended wChatState "a").2.2.2 rfl).2 convC [] rfl
  exact h.trans rfl

theorem toggleTask_of_ne {id : String} {now : Nat} {t : ChecklistTask}
    (h : t.id ≠ id) : toggleTask id now t = t := by
  unfold toggleTask
  rw [if_neg h]

theorem toggleTask_of_eq {id : String} {now : Nat} {t : ChecklistTask}
    (h : t.id = id) :
    toggleTask id now t = { t with status := nextStatus t.status, updatedAt := now } := by
  unfold toggleTask
  rw [if_pos h]
  cases hs : t.status <;> simp [nextStatus, hs]

theorem toggleTask_status_cycle (id : String) (n1 n2 n3 : Nat) (t : ChecklistTask) :
    (toggleTask id n3 (toggleTask id n2 (toggleTask id n1 t))).status = t.status := by
  by_cases h : t.id = id
  · cases hs : t.status <;> simp [toggleTask, h, hs]
  · rw [toggleTask_of_ne h, toggleTask_of_ne h, toggleTask_of_ne h]

/-- C10: `toggleTaskStatus` advances the matching task's status one
step along `todo → doing → done → todo`, touches only `status` and
`updatedAt` of that task, leaves every other task (and the filter)
unchanged, and applying it three times restores every task's status. -/
theorem toggleTaskStatus_spec (s : ChecklistState) (id : String) (now n2 n3 : Nat) :
    (toggleTaskStatus s id now).tasks.length = s.tasks.length
    ∧ (toggleTaskStatus s id now).filter = s.filter
    ∧ (∀ i : Nat, ∀ t : ChecklistTask, s.tasks[i]? = some t →
        ∃ t', (toggleTaskStatus s id now).tasks[i]? = some t'
          ∧ (t.id ≠ id → t' = t)
          ∧ (t.id = id →
              t'.status = nextStatus t.status ∧ t'.updatedAt = now
              ∧ t'.id = t.id ∧ t'.title = t.title ∧ t'.description = t.description
              ∧ t'.createdAt = t.createdAt ∧ t'.priority = t.priority
              ∧ t'.category = t.category))
    ∧ (toggleTaskStatus (toggleTaskStatus (toggleTaskStatus s id now) id n2) id n3).tasks.map
        ChecklistTask.status = s.tasks.map ChecklistTask.status := by
  refine ⟨?_, rfl, ?_, ?_⟩
  · simp [toggleTaskStatus]
  · intro i t ht
    refine ⟨toggleTask id now t, ?_, ?_, ?_⟩
    · simp [toggleTaskStatus, List.getElem?_map, ht]
    · intro h
      exact toggleTask_of_ne h
    · intro h
      rw [toggleTask_of_eq h]
      exact ⟨rfl, rfl, rfl, rfl, rfl, rfl, rfl, rfl⟩
  · simp only [toggleTaskStatus, List.map_map]
    apply List.map_congr_left
    intro t _
    show (toggleTask id n3 (toggleTask id n2 (toggleTask id now t))).status = t.status
    exact toggleTask_status_cycle id now n2 n3 t

/-- Witness for C10 at a concrete two-task checklist. -/
theorem toggleTaskStatus_spec_witness :
    (toggleTaskStatus (toggleTaskStatus (toggleTaskStatus wChecklist "x" 5) "x" 6)
        "x" 7).tasks.map ChecklistTask.status = wChecklist.tasks.map ChecklistTask.status
    ∧ ∃ t', (toggleTaskStatus wChecklist "x" 5).tasks[0]? = some t'
        ∧ t'.status = nextStatus taskA.status := by
  refine ⟨(toggleTaskStatus_spec wChecklist "x" 5 6 7).2.2.2, ?_⟩
  obtain ⟨t', ht', _, heq⟩ := (toggleTaskStatus_spec wChecklist "x" 5 6 7).2.2.1 0 taskA rfl
  exact ⟨t', ht', (heq rfl).1⟩

/-- Witness for C5: the empty result list is exactly the zero-confidence case. -/
theorem confidence_estimator_contract_witness :
    ConfidenceEstimator.estimate [] = 0 :=
  (confidence_estimator_contract [] sampleDeps sampleStore sampleReq).2.1.mpr rfl
